import Mathlib

/-!
Verification of the database session runner in `src/sql/main.go`
(package main, go-sql-driver/mysql example).

The program is a single straight-line `main` function: open the database,
ping it, insert one user, print rows-affected and last-insert-id, query all
users, scan each row into a fresh `User` and print it, then check the
iteration error.  Every error is handled by `log.Fatalln(err)`.

The shallow embedding models the external database/driver behaviour as an
environment `DBEnv` recording the outcome of each fallible call
(`sql.Open`, `DB.Ping`, `DB.Exec`, `Result.RowsAffected`,
`Result.LastInsertId`, `DB.Query`, the rows yielded by `Rows.Next` /
`Rows.Scan`, and `Rows.Err`), and `run` replays `main` against that
environment, producing the stdout lines, the exit status, the deferred
releases that actually ran, and the sequence of steps begun.

Go semantics that matter here: `log.Fatalln` calls `os.Exit(1)`, and
`os.Exit` terminates the process WITHOUT running deferred function calls,
so `defer db.Close()` and `defer rows.Close()` run only on the normal
(success) exit path.
-/

namespace GoSql

/-- `type User struct { Id int; Username string; Password string }`. -/
structure User where
  id : Int
  username : String
  password : String
  deriving DecidableEq

/-- A single column value as handed back by the driver: the `users` schema
is (auto-increment integer, text, text). -/
inductive ColVal where
  | intV (i : Int)
  | textV (s : String)
  deriving DecidableEq

/-- A row yielded by the cursor: its list of columns. -/
abbrev Row := List ColVal

/-- The operations of `main`, in source order.  `rowsAffected` and
`lastInsertId` are the two halves of reporting the insert outcome;
`iterate` is the `for rows.Next()` scan loop; `errCheck` is the
`rows.Err()` post-loop check; `release` is the running of the deferred
`rows.Close()` and `db.Close()`. -/
inductive Step where
  | connect
  | ping
  | insert
  | rowsAffected
  | lastInsertId
  | queryAll
  | iterate
  | errCheck
  | release
  deriving DecidableEq

/-- Source position of a step in `main`, for ordering statements. -/
def stepIdx : Step → Nat
  | .connect => 0
  | .ping => 1
  | .insert => 2
  | .rowsAffected => 3
  | .lastInsertId => 4
  | .queryAll => 5
  | .iterate => 6
  | .errCheck => 7
  | .release => 8

/-- The spec's error taxonomy. -/
inductive ErrKind where
  | connectionError
  | queryError
  | resultError
  | decodeError
  deriving DecidableEq

/-- Which spec error kind a failure at a given step is classified as
(section 7 taxonomy: connect/ping failures are `ConnectionError`, the
insert and the select are `QueryError`, the two metadata retrievals are
`ResultError`, a scan failure is `DecodeError`, and the post-loop
`rows.Err` fault is a `QueryError`).  `release` cannot fail fatally. -/
def errKind : Step → Option ErrKind
  | .connect => some .connectionError
  | .ping => some .connectionError
  | .insert => some .queryError
  | .rowsAffected => some .resultError
  | .lastInsertId => some .resultError
  | .queryAll => some .queryError
  | .iterate => some .decodeError
  | .errCheck => some .queryError
  | .release => none

/-- How the process ended: normal termination, or `log.Fatalln` at a step. -/
inductive ExitStatus where
  | success
  | fatal (s : Step)
  deriving DecidableEq

/-- The two scoped resources of the program. -/
inductive Res where
  | conn
  | cursor
  deriving DecidableEq

/-- The behaviour of the external database/driver during one run:
the outcome of each fallible call `main` makes, in source order.
`queryRows` is the sequence of rows `rows.Next` yields before returning
`false`; `rowsErr` is whether `rows.Err()` reports an iteration fault
after the loop. -/
structure DBEnv where
  openErr : Bool
  pingErr : Bool
  execErr : Bool
  rowsAffectedErr : Bool
  rowsAffectedVal : Int
  lastInsertIdErr : Bool
  lastInsertIdVal : Int
  queryErr : Bool
  queryRows : List Row
  rowsErr : Bool
  deriving DecidableEq

/-- Everything observable about one run of `main`: the lines printed to
standard output, the exit status, which deferred releases actually ran
(in order), whether `db.Exec` was invoked, the final value of the
in-memory record `u` created for insertion (`none` if `main` died before
creating it), and the sequence of steps begun. -/
structure RunResult where
  stdout : List String
  exit : ExitStatus
  releases : List Res
  execCalled : Bool
  insertRecord : Option User
  steps : List Step
  deriving DecidableEq

/-- How many times `db.Close()` ran. -/
def dbCloseCount (r : RunResult) : Nat := r.releases.count Res.conn

/-- How many times the deferred `rows.Close()` ran. -/
def rowsCloseCount (r : RunResult) : Nat := r.releases.count Res.cursor

/-- `dsn := "username:password@tcp(127.0.0.1:3306)/mydb"`. -/
def dsn : String := "username:password@tcp(127.0.0.1:3306)/mydb"

/-- `query := "insert into users (username, password) values (?, ?)"`. -/
def insertQuery : String := "insert into users (username, password) values (?, ?)"

/-- The select statement passed to `db.Query`. -/
def selectQuery : String := "select * from users"

/-- `u := &User{Username: "radovskyb", Password: "password123"}`:
the record created for insertion; `Id` is left at its zero value. -/
def insertedUser : User :=
  { id := 0, username := "radovskyb", password := "password123" }

/-- `rows.Scan(&u.Id, &u.Username, &u.Password)`: scanning succeeds exactly
when the row has exactly three columns of the expected kinds (integer,
text, text); any other column count or kind is a scan error.  (Scan's
documented contract: the number of values in dest must be the same as the
number of columns in Rows.) -/
def decodeUser : Row → Option User
  | [ColVal.intV i, ColVal.textV a, ColVal.textV b] =>
      some { id := i, username := a, password := b }
  | _ => none

/-- `fmt.Println(u)` on a `*User`: Go prints `&{Id Username Password}`. -/
def printUser (u : User) : String :=
  "&\x7b" ++ toString u.id ++ " " ++ u.username ++ " " ++ u.password ++ "\x7d"

/-- The stdout line a row produces when it decodes (empty marker when it
does not; a non-decoding row never reaches the print). -/
def decodedLine (r : Row) : String :=
  match decodeUser r with
  | some u => printUser u
  | none => ""

/-- The `for rows.Next()` loop: each yielded row is scanned into a fresh
`User` and printed; a scan error is fatal mid-loop.  Returns the lines
printed by the loop and whether the loop ran to exhaustion (`true`) or
died at a scan error (`false`). -/
def runLoop : List Row → List String × Bool
  | [] => ([], true)
  | r :: rest =>
    match decodeUser r with
    | none => ([], false)
    | some u =>
      let p := runLoop rest
      (printUser u :: p.1, p.2)

/-- One run of `main` against the environment `env`.  Each `log.Fatalln`
path terminates with `ExitStatus.fatal` at the failing step; since
`os.Exit` skips deferred calls, `releases` is empty on every fatal path
and `[cursor, conn]` (LIFO defer order) on the success path. -/
def run (env : DBEnv) : RunResult :=
  if env.openErr then
    { stdout := [], exit := .fatal .connect, releases := [],
      execCalled := false, insertRecord := none, steps := [.connect] }
  else if env.pingErr then
    { stdout := [], exit := .fatal .ping, releases := [],
      execCalled := false, insertRecord := none,
      steps := [.connect, .ping] }
  else if env.execErr then
    { stdout := [], exit := .fatal .insert, releases := [],
      execCalled := true, insertRecord := some insertedUser,
      steps := [.connect, .ping, .insert] }
  else if env.rowsAffectedErr then
    { stdout := [], exit := .fatal .rowsAffected, releases := [],
      execCalled := true, insertRecord := some insertedUser,
      steps := [.connect, .ping, .insert, .rowsAffected] }
  else if env.lastInsertIdErr then
    { stdout := [toString env.rowsAffectedVal],
      exit := .fatal .lastInsertId, releases := [],
      execCalled := true, insertRecord := some insertedUser,
      steps := [.connect, .ping, .insert, .rowsAffected, .lastInsertId] }
  else if env.queryErr then
    { stdout := [toString env.rowsAffectedVal, toString env.lastInsertIdVal],
      exit := .fatal .queryAll, releases := [],
      execCalled := true, insertRecord := some insertedUser,
      steps := [.connect, .ping, .insert, .rowsAffected, .lastInsertId,
                .queryAll] }
  else if (runLoop env.queryRows).2 then
    if env.rowsErr then
      { stdout := toString env.rowsAffectedVal ::
          toString env.lastInsertIdVal :: (runLoop env.queryRows).1,
        exit := .fatal .errCheck, releases := [],
        execCalled := true, insertRecord := some insertedUser,
        steps := [.connect, .ping, .insert, .rowsAffected, .lastInsertId,
                  .queryAll, .iterate, .errCheck] }
    else
      { stdout := toString env.rowsAffectedVal ::
          toString env.lastInsertIdVal :: (runLoop env.queryRows).1,
        exit := .success, releases := [.cursor, .conn],
        execCalled := true, insertRecord := some insertedUser,
        steps := [.connect, .ping, .insert, .rowsAffected, .lastInsertId,
                  .queryAll, .iterate, .errCheck, .release] }
  else
    { stdout := toString env.rowsAffectedVal ::
        toString env.lastInsertIdVal :: (runLoop env.queryRows).1,
      exit := .fatal .iterate, releases := [],
      execCalled := true, insertRecord := some insertedUser,
      steps := [.connect, .ping, .insert, .rowsAffected, .lastInsertId,
                .queryAll, .iterate] }

/-- The run reaches the query-all step with everything before it
succeeding. -/
def reachesQuery (env : DBEnv) : Prop :=
  env.openErr = false ∧ env.pingErr = false ∧ env.execErr = false ∧
  env.rowsAffectedErr = false ∧ env.lastInsertIdErr = false ∧
  env.queryErr = false

instance (env : DBEnv) : Decidable (reachesQuery env) := by
  unfold reachesQuery; infer_instance

/-- Environment in which `db.Ping` fails and everything else would
succeed. -/
def envPingFail : DBEnv :=
  { openErr := false, pingErr := true, execErr := false,
    rowsAffectedErr := false, rowsAffectedVal := 1,
    lastInsertIdErr := false, lastInsertIdVal := 1,
    queryErr := false, queryRows := [], rowsErr := false }

/-- Environment of a fully successful run with one row in the table. -/
def envOk : DBEnv :=
  { openErr := false, pingErr := false, execErr := false,
    rowsAffectedErr := false, rowsAffectedVal := 1,
    lastInsertIdErr := false, lastInsertIdVal := 1,
    queryErr := false,
    queryRows := [[ColVal.intV 1, ColVal.textV "radovskyb",
                   ColVal.textV "password123"]],
    rowsErr := false }

/-- Environment in which everything succeeds up to iteration, the table is
empty, but `rows.Err()` reports an iteration fault after the loop. -/
def envIterErr : DBEnv :=
  { openErr := false, pingErr := false, execErr := false,
    rowsAffectedErr := false, rowsAffectedVal := 1,
    lastInsertIdErr := false, lastInsertIdVal := 1,
    queryErr := false, queryRows := [], rowsErr := true }

/-- Environment in which `res.LastInsertId()` fails and everything before
it succeeds. -/
def envLastIdFail : DBEnv :=
  { openErr := false, pingErr := false, execErr := false,
    rowsAffectedErr := false, rowsAffectedVal := 1,
    lastInsertIdErr := true, lastInsertIdVal := 0,
    queryErr := false, queryRows := [], rowsErr := false }

/-- Environment of a successful run over an empty `users` table. -/
def envEmpty : DBEnv :=
  { openErr := false, pingErr := false, execErr := false,
    rowsAffectedErr := false, rowsAffectedVal := 1,
    lastInsertIdErr := false, lastInsertIdVal := 1,
    queryErr := false, queryRows := [], rowsErr := false }

/-- The sequence of steps `run` begins, as a function of how the run
ended: the fatal step and everything before it in source order (a fatal
stop at `release` never occurs; it is mapped to the empty sequence). -/
def stepsFor : ExitStatus → List Step
  | .fatal .connect => [.connect]
  | .fatal .ping => [.connect, .ping]
  | .fatal .insert => [.connect, .ping, .insert]
  | .fatal .rowsAffected => [.connect, .ping, .insert, .rowsAffected]
  | .fatal .lastInsertId =>
      [.connect, .ping, .insert, .rowsAffected, .lastInsertId]
  | .fatal .queryAll =>
      [.connect, .ping, .insert, .rowsAffected, .lastInsertId, .queryAll]
  | .fatal .iterate =>
      [.connect, .ping, .insert, .rowsAffected, .lastInsertId, .queryAll,
       .iterate]
  | .fatal .errCheck =>
      [.connect, .ping, .insert, .rowsAffected, .lastInsertId, .queryAll,
       .iterate, .errCheck]
  | .fatal .release => []
  | .success =>
      [.connect, .ping, .insert, .rowsAffected, .lastInsertId, .queryAll,
       .iterate, .errCheck, .release]

/-- The resource-release claim of the spec, as stated: on every exit path,
a resource acquired before the failing step (the connection once
`sql.Open` succeeded; the cursor once `db.Query` succeeded) is released
exactly once before the process terminates. -/
def ClaimC1 : Prop :=
  ∀ env : DBEnv,
    (env.openErr = false → dbCloseCount (run env) = 1) ∧
    (reachesQuery env → rowsCloseCount (run env) = 1)

/-! ### Helper lemmas about the scan loop -/

theorem runLoop_ok (rows : List Row) (hok : (runLoop rows).2 = true) :
    (runLoop rows).1 = rows.map decodedLine ∧
    ∀ r ∈ rows, (decodeUser r).isSome = true := by
  induction rows with
  | nil => simp [runLoop]
  | cons p rest ih =>
    rcases hp : decodeUser p with _ | v
    · rw [runLoop] at hok
      simp [hp] at hok
    · rw [runLoop] at hok
      simp only [hp] at hok
      obtain ⟨ih1, ih2⟩ := ih hok
      refine ⟨?_, ?_⟩
      · rw [runLoop]
        simp [hp, decodedLine, ih1]
      · intro r hr
        rcases List.mem_cons.mp hr with h | h
        · subst h; simp [hp]
        · exact ih2 r h

theorem runLoop_bad (pre : List Row) (r : Row) (post : List Row)
    (hpre : ∀ p ∈ pre, (decodeUser p).isSome = true)
    (hr : decodeUser r = none) :
    runLoop (pre ++ r :: post) = (pre.map decodedLine, false) := by
  induction pre with
  | nil => simp [runLoop, hr]
  | cons p rest ih =>
    have hp := hpre p (List.mem_cons_self p rest)
    obtain ⟨v, hv⟩ := Option.isSome_iff_exists.mp hp
    have := ih (fun q hq => hpre q (List.mem_cons_of_mem p hq))
    simp [runLoop, hv, decodedLine, this]

theorem runLoop_mem (rows : List Row) (r : Row) (u : User)
    (hmem : r ∈ rows) (hu : decodeUser r = some u)
    (hok : (runLoop rows).2 = true) :
    printUser u ∈ (runLoop rows).1 := by
  induction rows with
  | nil => cases hmem
  | cons p rest ih =>
    rcases hp : decodeUser p with _ | v
    · rw [runLoop] at hok
      simp [hp] at hok
    · rw [runLoop] at hok ⊢
      simp only [hp] at hok ⊢
      rcases List.mem_cons.mp hmem with h | h
      · subst h
        rw [hp] at hu
        injection hu with hu
        subst hu
        exact List.mem_cons_self _ _
      · exact List.mem_cons_of_mem _ (ih h hok)

/-- Inversion: a successful run means every fallible call before the loop
succeeded, the loop ran to exhaustion, and `rows.Err()` was nil. -/
theorem run_success_inv (env : DBEnv)
    (h : (run env).exit = ExitStatus.success) :
    reachesQuery env ∧ (runLoop env.queryRows).2 = true ∧
    env.rowsErr = false := by
  unfold run at h
  split_ifs at h
  simp_all [reachesQuery]

/-- The run never stops fatally at the release step. -/
theorem run_no_fatal_release (env : DBEnv) :
    (run env).exit ≠ ExitStatus.fatal Step.release := by
  unfold run
  split_ifs <;> simp

/-- The steps begun are determined by the exit status: the failing step
and everything before it, or all nine on success. -/
theorem run_steps_spec (env : DBEnv) :
    (run env).steps = stepsFor (run env).exit := by
  unfold run
  split_ifs <;> rfl

/-! ### Claims -/

/-- C1 (counterexample): the claim that every resource acquired before the
failing step is released exactly once on every exit path is false: when
`db.Ping` fails (`envPingFail`), the connection handle was acquired
(`sql.Open` succeeded) but `log.Fatalln` terminates via `os.Exit`, which
skips the deferred `db.Close()`, so the connection is never released. -/
theorem C1_counterexample : ¬ ClaimC1 := by
  intro h
  have h1 := (h envPingFail).1 (by decide)
  exact absurd h1 (by decide)

/-- C1 (amended): on the successful exit path the cursor and the
connection are each released exactly once (cursor first, matching LIFO
defer order); on every fatal error path `log.Fatalln` exits the process
via `os.Exit`, which skips deferred calls, so no release runs at all. -/
theorem C1_scoped_release (env : DBEnv) :
    ((run env).exit = ExitStatus.success →
      (run env).releases = [Res.cursor, Res.conn] ∧
      dbCloseCount (run env) = 1 ∧ rowsCloseCount (run env) = 1) ∧
    (∀ s, (run env).exit = ExitStatus.fatal s →
      (run env).releases = [] ∧ dbCloseCount (run env) = 0 ∧
      rowsCloseCount (run env) = 0) := by
  unfold run
  split_ifs <;> simp [dbCloseCount, rowsCloseCount]

/-- C1 witness: a concrete successful run releases both resources once. -/
theorem C1_scoped_release_witness :
    (run envOk).releases = [Res.cursor, Res.conn] ∧
    dbCloseCount (run envOk) = 1 ∧ rowsCloseCount (run envOk) = 1 :=
  (C1_scoped_release envOk).1 (by decide)

/-- C2: whenever the run terminates fatally at a step, that step is the
last one begun, every step begun lies at or before it in source order,
no step was begun twice (no retry), and the release step never ran. -/
theorem C2_fail_fast (env : DBEnv) (s : Step)
    (h : (run env).exit = ExitStatus.fatal s) :
    (run env).steps.getLast? = some s ∧
    (∀ t ∈ (run env).steps, stepIdx t ≤ stepIdx s) ∧
    (run env).steps.Nodup ∧ Step.release ∉ (run env).steps := by
  rw [run_steps_spec env, h]
  cases s <;>
    first
      | decide
      | exact absurd h (run_no_fatal_release env)

/-- C2 witness: the ping-failure run ends at the ping step. -/
theorem C2_fail_fast_witness :
    (run envPingFail).steps.getLast? = some Step.ping :=
  (C2_fail_fast envPingFail Step.ping (by decide)).1

/-- C3: every successful run executes exactly the eight operations in
source order: connect, ping, insert, rows-affected, last-insert-id,
query-all, iterate-and-decode, iteration-error check, release. -/
theorem C3_success_order (env : DBEnv)
    (h : (run env).exit = ExitStatus.success) :
    (run env).steps = [Step.connect, Step.ping, Step.insert,
      Step.rowsAffected, Step.lastInsertId, Step.queryAll, Step.iterate,
      Step.errCheck, Step.release] := by
  unfold run at h ⊢
  split_ifs at h ⊢
  simp_all

/-- C3 witness: the concrete successful run has the full step sequence. -/
theorem C3_success_order_witness :
    (run envOk).steps = [Step.connect, Step.ping, Step.insert,
      Step.rowsAffected, Step.lastInsertId, Step.queryAll, Step.iterate,
      Step.errCheck, Step.release] :=
  C3_success_order envOk (by decide)

/-- C4: when the loop exits by exhaustion, the run always performs the
`rows.Err()` post-check; the outcome depends on that check and not on the
loop's boolean signal alone: an iteration fault is fatal at the check
step (classified `QueryError`), and only its absence lets the run
succeed. -/
theorem C4_post_loop_check (env : DBEnv) (hq : reachesQuery env)
    (hloop : (runLoop env.queryRows).2 = true) :
    Step.errCheck ∈ (run env).steps ∧
    (env.rowsErr = true →
      (run env).exit = ExitStatus.fatal Step.errCheck ∧
      errKind Step.errCheck = some ErrKind.queryError) ∧
    (env.rowsErr = false → (run env).exit = ExitStatus.success) := by
  obtain ⟨e1, e2, e3, e4, e5, e6⟩ := hq
  unfold run
  rcases he : env.rowsErr <;>
    simp [e1, e2, e3, e4, e5, e6, hloop, he, errKind]

/-- C4 witness: with an empty row set but a reported iteration fault, the
run dies at the post-loop check. -/
theorem C4_post_loop_check_witness :
    (run envIterErr).exit = ExitStatus.fatal Step.errCheck :=
  (((C4_post_loop_check envIterErr (by decide) (by decide)).2.1)
    (by decide)).1

/-- C5: scanning a row succeeds exactly when it has three columns of the
expected kinds (integer, text, text); any other column count yields no
record (no truncation or padding); mid-iteration, the first non-decoding
row is fatal at the iterate step (classified `DecodeError`) with only the
earlier rows printed; and on a successful run every decoded row's printed
form appears on standard output. -/
theorem C5_decode_exact (env : DBEnv) (hq : reachesQuery env) :
    (∀ r : Row, (decodeUser r).isSome = true ↔
      ∃ i a b, r = [ColVal.intV i, ColVal.textV a, ColVal.textV b]) ∧
    (∀ r : Row, r.length ≠ 3 → decodeUser r = none) ∧
    (∀ pre r post, env.queryRows = pre ++ r :: post →
      (∀ p ∈ pre, (decodeUser p).isSome = true) → decodeUser r = none →
      (run env).exit = ExitStatus.fatal Step.iterate ∧
      errKind Step.iterate = some ErrKind.decodeError ∧
      (run env).stdout = toString env.rowsAffectedVal ::
        toString env.lastInsertIdVal :: pre.map decodedLine) ∧
    (∀ r u, r ∈ env.queryRows → decodeUser r = some u →
      (run env).exit = ExitStatus.success →
      printUser u ∈ (run env).stdout) := by
  obtain ⟨e1, e2, e3, e4, e5, e6⟩ := hq
  refine ⟨?_, ?_, ?_, ?_⟩
  · intro r
    constructor
    · intro h
      rw [decodeUser.eq_def] at h
      split at h
      · next i a b => exact ⟨i, a, b, rfl⟩
      · simp at h
    · rintro ⟨i, a, b, rfl⟩
      rfl
  · intro r hr
    rw [decodeUser.eq_def]
    split
    · next i a b => simp at hr
    · rfl
  · intro pre r post hsplit hpre hr
    have hbad := runLoop_bad pre r post hpre hr
    unfold run
    simp [e1, e2, e3, e4, e5, e6, hsplit, hbad, errKind]
  · intro r u hmem hu hsucc
    obtain ⟨_, hloop, herr⟩ := run_success_inv env hsucc
    have hin := runLoop_mem env.queryRows r u hmem hu hloop
    unfold run
    simp [e1, e2, e3, e4, e5, e6, hloop, herr]
    exact Or.inr (Or.inr hin)

/-- C5 witness: a two-column row does not decode. -/
theorem C5_decode_exact_witness :
    decodeUser [ColVal.intV 1, ColVal.textV "a"] = none :=
  (C5_decode_exact envOk (by decide)).2.1
    [ColVal.intV 1, ColVal.textV "a"] (by decide)

/-- C6: if `sql.Open` succeeds but `db.Ping` fails, the run halts at the
ping step (classified `ConnectionError`), `db.Exec` is never invoked, and
the insert step never begins — so no row is added to the table. -/
theorem C6_ping_fail (env : DBEnv) (h1 : env.openErr = false)
    (h2 : env.pingErr = true) :
    (run env).exit = ExitStatus.fatal Step.ping ∧
    errKind Step.ping = some ErrKind.connectionError ∧
    (run env).execCalled = false ∧
    Step.insert ∉ (run env).steps := by
  unfold run
  simp [h1, h2, errKind]

/-- C6 witness: the concrete ping-failure run never calls Exec. -/
theorem C6_ping_fail_witness :
    (run envPingFail).execCalled = false :=
  (C6_ping_fail envPingFail (by decide) (by decide)).2.2.1

/-- C7: every successful run prints exactly the rows-affected line, then
the last-insert-id line, then one line per decoded record in cursor
order, and nothing else; all yielded rows decoded. -/
theorem C7_output (env : DBEnv)
    (h : (run env).exit = ExitStatus.success) :
    (run env).stdout = toString env.rowsAffectedVal ::
      toString env.lastInsertIdVal :: env.queryRows.map decodedLine ∧
    (∀ r ∈ env.queryRows, (decodeUser r).isSome = true) := by
  obtain ⟨⟨e1, e2, e3, e4, e5, e6⟩, hloop, herr⟩ := run_success_inv env h
  obtain ⟨hmap, hdec⟩ := runLoop_ok env.queryRows hloop
  unfold run
  simp [e1, e2, e3, e4, e5, e6, hloop, herr, hmap]
  exact hdec

/-- C7 witness: the concrete successful run's exact standard output. -/
theorem C7_output_witness :
    (run envOk).stdout = toString envOk.rowsAffectedVal ::
      toString envOk.lastInsertIdVal :: envOk.queryRows.map decodedLine :=
  (C7_output envOk (by decide)).1

/-- C8: after a successful insert, a rows-affected failure is fatal at
that step before anything is printed; a last-insert-id failure is fatal
at its step after the rows-affected line was already printed (so the
rows-affected value is retrieved and printed first); when both succeed,
standard output starts with the rows-affected line then the
last-insert-id line.  Both failures are classified `ResultError`. -/
theorem C8_insert_metadata (env : DBEnv) (h1 : env.openErr = false)
    (h2 : env.pingErr = false) (h3 : env.execErr = false) :
    (env.rowsAffectedErr = true →
      (run env).exit = ExitStatus.fatal Step.rowsAffected ∧
      errKind Step.rowsAffected = some ErrKind.resultError ∧
      (run env).stdout = []) ∧
    (env.rowsAffectedErr = false → env.lastInsertIdErr = true →
      (run env).exit = ExitStatus.fatal Step.lastInsertId ∧
      errKind Step.lastInsertId = some ErrKind.resultError ∧
      (run env).stdout = [toString env.rowsAffectedVal]) ∧
    (env.rowsAffectedErr = false → env.lastInsertIdErr = false →
      ∃ rest, (run env).stdout = toString env.rowsAffectedVal ::
        toString env.lastInsertIdVal :: rest) := by
  unfold run
  refine ⟨?_, ?_, ?_⟩
  · intro h4
    simp [h1, h2, h3, h4, errKind]
  · intro h4 h5
    simp [h1, h2, h3, h4, h5, errKind]
  · intro h4 h5
    simp only [h1, h2, h3, h4, h5, Bool.false_eq_true, if_false]
    split_ifs <;> exact ⟨_, rfl⟩

/-- C8 witness: with only the last-insert-id retrieval failing, the run
dies at that step having already printed the rows-affected line. -/
theorem C8_insert_metadata_witness :
    (run envLastIdFail).exit = ExitStatus.fatal Step.lastInsertId ∧
    (run envLastIdFail).stdout = [toString envLastIdFail.rowsAffectedVal] := by
  have h := (C8_insert_metadata envLastIdFail (by decide) (by decide)
    (by decide)).2.1 (by decide) (by decide)
  exact ⟨h.1, h.2.2⟩

/-- C9: query-all over an empty table yields a successful run that prints
only the two insert-outcome lines: the loop exhausts on the first advance,
the post-loop check passes, and no record line is printed. -/
theorem C9_empty_table (env : DBEnv) (hq : reachesQuery env)
    (hrows : env.queryRows = []) (herr : env.rowsErr = false) :
    (run env).exit = ExitStatus.success ∧
    (run env).stdout = [toString env.rowsAffectedVal,
      toString env.lastInsertIdVal] := by
  obtain ⟨e1, e2, e3, e4, e5, e6⟩ := hq
  unfold run
  simp [e1, e2, e3, e4, e5, e6, hrows, herr, runLoop]

/-- C9 witness: the concrete empty-table run succeeds with two lines. -/
theorem C9_empty_table_witness :
    (run envEmpty).exit = ExitStatus.success :=
  (C9_empty_table envEmpty (by decide) (by decide) (by decide)).1

/-- C10: on every run that begins the insert step, the in-memory record
created for insertion is exactly `{id := 0, username := "radovskyb",
password := "password123"}` at process termination: its identifier field
is never written back after the last-insert-id is retrieved, remaining at
its zero value, and only username and password were ever set. -/
theorem C10_insert_record_frame (env : DBEnv)
    (h : Step.insert ∈ (run env).steps) :
    (run env).insertRecord = some insertedUser ∧
    insertedUser.id = 0 ∧ insertedUser.username = "radovskyb" ∧
    insertedUser.password = "password123" := by
  unfold run at h ⊢
  split_ifs at h ⊢ <;> simp_all [insertedUser]

/-- C10 witness: the concrete successful run's insert record still has a
zero identifier. -/
theorem C10_insert_record_frame_witness :
    (run envOk).insertRecord = some insertedUser :=
  (C10_insert_record_frame envOk (by decide)).1

end GoSql
